import Mathlib

/-!
Verification development for the adapter process-lifecycle supervisor of the
claude-swarm repository.  The definitions below are shallow embeddings of the
TypeScript sources:

* `src/src/adapters/ConfigAdapter.ts` — the event-driven adapter with the
  in-memory `running`/`started`/`startError` flags and the persisted registry
  (`resolveCommand`, `start`, `stop`, `kill`, `isRunning`, `detectRunning`,
  `killGroup`, `registerInSwarm`, `deregisterFromSwarm`, `loadRegistry`);
* `src/unnamed/part_006` — the variant whose `start()` awaits a promise
  settled by the first of {log match, process exit, 120 s timer};
* `src/src/adapters/ProcessAdapter.ts` — the polling adapter with the
  configurable `readyTimeoutMs` (default 120000);
* `src/src/config.ts` — `loadSwarmConfig`.

External effects (the regex engine, `fetch`, `execSync`, `process.kill`,
spawned pids, clock strings) are supplied by explicit environment parameters;
every `try { … } catch {}` of the source becomes a total branch.  JavaScript
truthiness of optional config fields (`0`, `""` are falsy) is modelled by the
`…Cfg` projections.
-/

namespace ClaudeSwarm

/-- `PlatformCommand = string | { mac: string; windows: string }`.  At the
JSON level either key of the keyed form may be absent at runtime, which the
declared TS type cannot express; absence is modelled by `none`. -/
inductive PlatformCommand where
  | str (s : String)
  | keyed (mac windows : Option String)
deriving DecidableEq, Repr

/-- `resolveCommand` (ConfigAdapter.ts lines 20–23): a plain string is
returned unchanged; a keyed spec yields `cmd.windows` on win32 and `cmd.mac`
otherwise.  Reading an absent key in JS gives `undefined`, i.e. `none`. -/
def resolveCommand (isWin : Bool) : PlatformCommand → Option String
  | .str s => some s
  | .keyed mac win => if isWin then win else mac

/-- `AppAdapterConfig` of ConfigAdapter.ts (name, start, stop?, kill?,
readyPattern?, port?, health?). -/
structure AppAdapterConfig where
  name : String
  start : PlatformCommand
  stop? : Option PlatformCommand := none
  kill? : Option PlatformCommand := none
  readyPattern? : Option String := none
  port? : Option Nat := none
  health? : Option String := none
deriving DecidableEq, Repr

/-- JS truthiness of `this.config.port`: the number `0` is falsy, so a
configured port `0` behaves as unconfigured. -/
def portCfg (cfg : AppAdapterConfig) : Option Nat :=
  match cfg.port? with
  | some p => if p = 0 then none else some p
  | none => none

/-- JS truthiness of `this.config.health`: the empty string is falsy. -/
def healthCfg (cfg : AppAdapterConfig) : Option String :=
  match cfg.health? with
  | some h => if h = "" then none else some h
  | none => none

/-- JS truthiness of `this.config.readyPattern` in
`if (!this.config.readyPattern)`: the empty string is falsy. -/
def patternCfg (cfg : AppAdapterConfig) : Option String :=
  match cfg.readyPattern? with
  | some p => if p = "" then none else some p
  | none => none

/-- JS truthiness of `stopCfg` / `killCfg` (`if (stopCfg) { … }`): an object
is always truthy, the empty command string is falsy. -/
def cmdTruthy : Option PlatformCommand → Option PlatformCommand
  | some (.str s) => if s = "" then none else some (.str s)
  | some (.keyed m w) => some (.keyed m w)
  | none => none

/-- One persisted registry value (ConfigAdapter.ts `registerInSwarm`):
`{status, pid, port, log, project, health, startedAt, stoppedAt}`. -/
structure RegistryEntry where
  status : String
  pid : Option Nat
  port : Option Nat
  log : String
  project : String
  health : Option String
  startedAt : Option String
  stoppedAt : Option String
deriving DecidableEq, Repr

/-- The JSON registry object, keyed by adapter name. -/
def Registry := List (String × RegistryEntry)
deriving DecidableEq, Repr

/-- `registry[name]` read. -/
def lookupEntry (k : String) : Registry → Option RegistryEntry
  | [] => none
  | (k', v) :: t => if k' = k then some v else lookupEntry k t

/-- `registry[name] = entry` assignment: overwrites the one key, keeps every
other key. -/
def setEntry (k : String) (v : RegistryEntry) : Registry → Registry
  | [] => [(k, v)]
  | (k', v') :: t => if k' = k then (k, v) :: t else (k', v') :: setEntry k v t

/-- The on-disk state of `.claude-swarm/registry.json`: absent, present but
unparsable JSON, or a parsed object. -/
inductive RegFile where
  | missing
  | corrupt
  | good (reg : Registry)
deriving DecidableEq, Repr

/-- `loadRegistry` (ConfigAdapter.ts lines 242–250): a missing file and a
file whose `JSON.parse` throws are both treated as the empty object. -/
def loadRegistry : RegFile → Registry
  | .missing => ([] : Registry)
  | .corrupt => ([] : Registry)
  | .good reg => reg

/-- `saveRegistry`: writes the whole object back. -/
def saveRegistry (reg : Registry) : RegFile :=
  .good reg

/-- `logFile()`: `join(cwd, "logs", name + ".log")`; the separator is
modelled as `/`. -/
def logFile (cwd name : String) : String :=
  cwd ++ "/logs/" ++ name ++ ".log"

/-- The `health` field written by `registerInSwarm`:
`config.health ?? (config.port ? "http://localhost:" + port : null)`. -/
def registryHealth (cfg : AppAdapterConfig) : Option String :=
  match cfg.health? with
  | some h => some h
  | none =>
    match portCfg cfg with
    | some p => some ("http://localhost:" ++ toString p)
    | none => none

/-- `registerInSwarm` (ConfigAdapter.ts lines 258–273): load the whole file,
overwrite this adapter's key with a fresh `running` entry, write back.
`now` is `new Date().toISOString()`. -/
def registerInSwarm (cfg : AppAdapterConfig) (cwd now : String) (pid : Option Nat)
    (f : RegFile) : RegFile :=
  saveRegistry (setEntry cfg.name
    { status := "running"
      pid := pid
      port := cfg.port?
      log := logFile cwd cfg.name
      project := cwd
      health := registryHealth cfg
      startedAt := some now
      stoppedAt := none } (loadRegistry f))

/-- `deregisterFromSwarm` (ConfigAdapter.ts lines 275–286): if this
adapter's key is present, set `status := "stopped"`, `stoppedAt := now`,
`pid := null` and write back; otherwise write nothing. -/
def deregisterFromSwarm (cfg : AppAdapterConfig) (now : String) (f : RegFile) : RegFile :=
  let reg := loadRegistry f
  match lookupEntry cfg.name reg with
  | none => f
  | some e =>
    saveRegistry (setEntry cfg.name
      { e with status := "stopped", stoppedAt := some now, pid := none } reg)

/-- The mutable fields of a `ConfigAdapter` instance (ConfigAdapter.ts lines
36–40).  `proc` stands for `this.proc !== null`. -/
structure AdapterState where
  pid : Option Nat := none
  proc : Bool := false
  running : Bool := false
  started : Bool := false
  startError : Option String := none
deriving DecidableEq, Repr

/-- `isStarting()` (ConfigAdapter.ts lines 166–168):
`this.proc !== null && !this.running`. -/
def isStarting (st : AdapterState) : Bool :=
  st.proc && !st.running

/-- `lastError()` (ConfigAdapter.ts lines 65–67). -/
def lastErrorOf (st : AdapterState) : Option String :=
  st.startError

/-- What the `fetch` of the health URL does: a response with `res.ok` true
(2xx), a response with `res.ok` false (non-2xx), or a thrown error
(connection failure / the 3 s `AbortSignal.timeout`). -/
inductive FetchOutcome where
  | ok2xx
  | non2xx
  | netFail
deriving DecidableEq, Repr

/-- Oracle for the external probes of one `detectRunning` call. -/
structure ProbeEnv where
  fetchOutcome : FetchOutcome := .netFail
  portListening : Bool := false
  portCheckThrows : Bool := false
  pidAlive : Bool := false
  pidCheckThrows : Bool := false
deriving DecidableEq, Repr

/-- The port/PID tail of the probe chain (ConfigAdapter.ts lines 191–235,
identically part_006 lines 177–221).  On both platforms a configured port is
checked first (`Get-NetTCPConnection` / `lsof -i :port -t`, a thrown
`execSync` giving false); otherwise the tracked PID is probed
(`Get-Process` on win32; `process.kill(pid, 0)` on POSIX, which clears
`this.pid` when it throws). -/
def detectPortPid (cfg : AppAdapterConfig) (isWin : Bool) (env : ProbeEnv)
    (st : AdapterState) : Bool × AdapterState :=
  if isWin then
    match portCfg cfg with
    | some _ => ((if env.portCheckThrows then false else env.portListening), st)
    | none =>
      match st.pid with
      | some _ => ((if env.pidCheckThrows then false else env.pidAlive), st)
      | none => (false, st)
  else
    match portCfg cfg with
    | some _ => ((if env.portCheckThrows then false else env.portListening), st)
    | none =>
      match st.pid with
      | some _ =>
        if env.pidAlive then (true, st) else (false, { st with pid := none })
      | none => (false, st)

/-- `detectRunning` (ConfigAdapter.ts lines 182–236); the same chain is the
whole body of part_006's `isRunning` (lines 166–222).  When `health` is
configured: a 2xx response returns true at once, a thrown fetch returns
false at once (port and PID are never consulted), and a non-2xx response
falls through to the port/PID tail. -/
def detectRunning (cfg : AppAdapterConfig) (isWin : Bool) (env : ProbeEnv)
    (st : AdapterState) : Bool × AdapterState :=
  match healthCfg cfg with
  | some _ =>
    match env.fetchOutcome with
    | .ok2xx => (true, st)
    | .netFail => (false, st)
    | .non2xx => detectPortPid cfg isWin env st
  | none => detectPortPid cfg isWin env st

/-- The world one adapter instance acts on: its own state, the shared
registry file, and the `outputBuffer` of the current readiness watch. -/
structure TWorld where
  st : AdapterState
  reg : RegFile
  buf : String := ""
deriving DecidableEq, Repr

/-- `isRunning()` (ConfigAdapter.ts lines 170–180): an in-memory `running`
flag short-circuits to true; an instance that was never started returns
false without probing; otherwise `detectRunning` is consulted and a newly
detected process sets `running` and re-registers in the swarm registry. -/
def isRunningCA (cfg : AppAdapterConfig) (isWin : Bool) (env : ProbeEnv)
    (cwd now : String) (w : TWorld) : Bool × TWorld :=
  if w.st.running then (true, w)
  else if !w.st.started then (false, w)
  else
    let d := detectRunning cfg isWin env w.st
    if d.1 then
      let st2 := { d.2 with running := true }
      (true, { st := st2, reg := registerInSwarm cfg cwd now st2.pid w.reg, buf := w.buf })
    else (false, { st := d.2, reg := w.reg, buf := w.buf })

/-- A termination attempt issued to the operating system. -/
inductive Act where
  | execCmd (cmd : String)
  | winTaskkill (pid : Nat)
  | winPortStop (port : Nat) (force : Bool)
  | posixGroupKill (pid : Nat) (sig : String)
  | posixPortKill (port : Nat) (sig : String)
deriving DecidableEq, Repr

/-- `killGroup(signal)` (ConfigAdapter.ts lines 302–340).  Clears `running`
and `proc` up front, then: with a tracked PID, `taskkill /PID pid /T /F`
(win32) or `process.kill(-pid, signal)` (POSIX) and the PID is cleared;
otherwise, with a configured port, the port owner is stopped; otherwise
nothing.  Every OS call is inside `try {} catch {}`, so the function itself
never throws. -/
def killGroup (cfg : AppAdapterConfig) (isWin : Bool) (st : AdapterState)
    (sig : String) : AdapterState × List Act :=
  let st := { st with running := false, proc := false }
  if isWin then
    match st.pid with
    | some p => ({ st with pid := none }, [.winTaskkill p])
    | none =>
      match portCfg cfg with
      | some prt => (st, [.winPortStop prt (sig = "SIGKILL")])
      | none => (st, [])
  else
    match st.pid with
    | some p => ({ st with pid := none }, [.posixGroupKill p sig])
    | none =>
      match portCfg cfg with
      | some prt => (st, [.posixPortKill prt sig])
      | none => (st, [])

/-- `stopCmd.replace("signal:", "")` after `stopCmd.startsWith("signal:")`
held: replacing the first occurrence of a prefix is dropping it. -/
def sigName (cmd : String) : String :=
  cmd.drop ("signal:".length)

/-- Does this optional command spec resolve to a string on the host OS?
The declared TS type guarantees it; a JSON spec missing the host key
does not (reading it gives `undefined`). -/
def cmdResolves (isWin : Bool) (o : Option PlatformCommand) : Bool :=
  match cmdTruthy o with
  | none => true
  | some spc => (resolveCommand isWin spc).isSome

/-- `stop()` (ConfigAdapter.ts lines 134–148).  A configured command that
resolves to a `signal:` sentinel sends that signal to the group and returns;
a plain command is run with `execSync` inside `try {} catch {}`
(`execFailed` is its outcome, discarded either way) and `killGroup("SIGTERM")`
always follows.  The only uncaught throw is reading `.startsWith` of the
`undefined` produced by a keyed spec missing the host key. -/
def stopCA (cfg : AppAdapterConfig) (isWin execFailed : Bool)
    (st : AdapterState) : Except String (AdapterState × List Act) :=
  match cmdTruthy cfg.stop? with
  | some spc =>
    match resolveCommand isWin spc with
    | none => .error "TypeError: Cannot read properties of undefined"
    | some cmd =>
      if cmd.startsWith "signal:" then .ok (killGroup cfg isWin st (sigName cmd))
      else
        let _ := execFailed
        let r := killGroup cfg isWin st "SIGTERM"
        .ok (r.1, .execCmd cmd :: r.2)
  | none => .ok (killGroup cfg isWin st "SIGTERM")

/-- `kill()` (ConfigAdapter.ts lines 150–164): as `stop()` with the `kill`
command and a forced `killGroup("SIGKILL")`. -/
def killCA (cfg : AppAdapterConfig) (isWin execFailed : Bool)
    (st : AdapterState) : Except String (AdapterState × List Act) :=
  match cmdTruthy cfg.kill? with
  | some spc =>
    match resolveCommand isWin spc with
    | none => .error "TypeError: Cannot read properties of undefined"
    | some cmd =>
      if cmd.startsWith "signal:" then .ok (killGroup cfg isWin st (sigName cmd))
      else
        let _ := execFailed
        let r := killGroup cfg isWin st "SIGKILL"
        .ok (r.1, .execCmd cmd :: r.2)
  | none => .ok (killGroup cfg isWin st "SIGKILL")

/-- Is the character in the class `[0-9;?]` of the ANSI-escape regex? -/
def isAnsiParam (c : Char) : Bool :=
  c.isDigit || c = ';' || c = '?'

/-- `str.replace(/\x1b\[[0-9;?]*[A-Za-z]/g, "")` (ConfigAdapter.ts lines
105–106): drop every `ESC [ params* letter` sequence; an `ESC` that does not
head such a sequence is kept (the regex simply fails to match there and the
scan continues behind it). -/
def stripAnsiAux : List Char → List Char
  | [] => []
  | c :: rest =>
    if c = Char.ofNat 27 then
      match rest with
      | '[' :: r2 =>
        match h : r2.dropWhile isAnsiParam with
        | t :: r3 =>
          if t.isAlpha then stripAnsiAux r3 else c :: '[' :: stripAnsiAux r2
        | [] => c :: '[' :: stripAnsiAux r2
      | [] => [c]
      | d :: r2 => c :: stripAnsiAux (d :: r2)
    else c :: stripAnsiAux rest
termination_by l => l.length
decreasing_by
  all_goals simp only [List.length_cons]
  all_goals try omega
  all_goals
    have h1 : (r2.dropWhile isAnsiParam).length ≤ r2.length := by
      clear h
      induction r2 with
      | nil => simp [List.dropWhile]
      | cons a t ih =>
        rw [List.dropWhile_cons]
        split
        · exact Nat.le_succ_of_le ih
        · simp
    rw [h] at h1
    simp only [List.length_cons] at h1
    omega

/-- ANSI stripping on strings. -/
def stripAnsi (s : String) : String :=
  String.mk (stripAnsiAux s.data)

/-- `${code}` for `code: number | null` in the exit message template. -/
def exitCodeStr : Option Int → String
  | none => "null"
  | some n => toString n

/-- The premature-exit message
`` `${name} exited before becoming ready (exit code: ${code})` ``
(ConfigAdapter.ts line 126, part_006 line 121). -/
def exitMsg (name : String) (code : Option Int) : String :=
  name ++ " exited before becoming ready (exit code: " ++ exitCodeStr code ++ ")"

/-- `start()` of ConfigAdapter.ts (lines 69–132).  It awaits `this.kill()`
(which rejects only on an unresolvable kill spec), force-kills the port
owner, sets `started`, clears `startError`, spawns the command (the OS
assigns `spawnPid`) and then: with no truthy `readyPattern` it marks the
adapter running and registers at once; with a pattern it merely attaches the
data/exit handlers and returns.  In both cases the returned promise resolves
here — nothing later can reject it. -/
def startCA (cfg : AppAdapterConfig) (isWin : Bool) (cwd now : String)
    (spawnPid : Nat) (w : TWorld) : Except String TWorld :=
  match killCA cfg isWin false w.st with
  | .error e => .error e
  | .ok (st1, _) =>
    -- this.killPort(): external effect only, swallowed
    let st2 := { st1 with started := true, startError := none }
    let st3 := { st2 with pid := some spawnPid, proc := true }
    match patternCfg cfg with
    | none =>
      let st4 := { st3 with running := true }
      .ok { st := st4, reg := registerInSwarm cfg cwd now st4.pid w.reg, buf := w.buf }
    | some _ => .ok { st := st3, reg := w.reg, buf := "" }

/-- The `onData` handler of ConfigAdapter.ts (lines 109–119), attached only
when a truthy `readyPattern` exists: append the chunk to `outputBuffer`
unless already running, and when `pattern.test(stripAnsi(buffer))` succeeds
set `running`, clear the buffer and register in the swarm.  `rtest` is the
compiled regex's `test`. -/
def onDataCA (cfg : AppAdapterConfig) (cwd now : String)
    (rtest : String → String → Bool) (chunk : String) (w : TWorld) : TWorld :=
  match patternCfg cfg with
  | none => w
  | some pat =>
    if w.st.running then w
    else
      let buf2 := w.buf ++ chunk
      if rtest pat (stripAnsi buf2) then
        { st := { w.st with running := true }
          reg := registerInSwarm cfg cwd now w.st.pid w.reg
          buf := "" }
      else { w with buf := buf2 }

/-- The `exit` handler of ConfigAdapter.ts (lines 96–100 without a pattern,
124–131 with one): with a pattern, a process not yet running records the
premature-exit message in `startError`; in every case `running` is cleared,
the proc reference dropped and the registry entry marked stopped. -/
def onExitCA (cfg : AppAdapterConfig) (now : String) (code : Option Int)
    (w : TWorld) : TWorld :=
  let st1 :=
    match patternCfg cfg with
    | none => w.st
    | some _ =>
      if w.st.running then w.st
      else { w.st with startError := some (exitMsg cfg.name code) }
  { st := { st1 with running := false, proc := false }
    reg := deregisterFromSwarm cfg now w.reg
    buf := w.buf }

/-- One occurrence inside part_006's readiness promise: a poll of the log
file that read `chunk` fresh bytes, the process's `exit` event, or the
120 s timer firing. -/
inductive P6Ev where
  | dataRead (chunk : String)
  | procExit (code : Option Int)
  | timeoutFire
deriving DecidableEq, Repr

/-- The timeout message
`` `${name} did not become ready within ${timeoutMs / 1000}s` ``
with the fixed `timeoutMs = 120000` of part_006 line 70. -/
def p6TimeoutMsg (name : String) : String :=
  name ++ " did not become ready within 120s"

/-- The promise part_006's `start()` awaits (lines 88–131): the first
settling occurrence wins (the `settled` guard makes `finish` idempotent).
A poll appends what it read to `outputBuffer` and resolves on
`pattern.test(outputBuffer)`; the exit event rejects with the premature-exit
message; the timer rejects with the timeout message.  Returns (settled
outcome if any, final buffer, termination attempts issued) — no settling
path signals or kills the launched process, hence the empty action lists. -/
def p6Proc (name pat : String) (rtest : String → String → Bool) :
    List P6Ev → String → Option (Except String Unit) × String × List Act
  | [], b => (none, b, [])
  | ev :: rest, b =>
    match ev with
    | .dataRead chunk =>
      let b2 := b ++ chunk
      if rtest pat b2 then (some (.ok ()), b2, []) else p6Proc name pat rtest rest b2
    | .procExit code => (some (.error (exitMsg name code)), b, [])
    | .timeoutFire => (some (.error (p6TimeoutMsg name)), b, [])

/-- part_006 `start()` (lines 48–132) seen from its caller: with no truthy
`readyPattern` it spawns and resolves at once, whatever the process later
writes or does; with a pattern its outcome is the settling of the awaited
promise (`none` while no occurrence has settled it). -/
def p6StartOutcome (cfg : AppAdapterConfig) (rtest : String → String → Bool)
    (evs : List P6Ev) : Option (Except String Unit) :=
  match patternCfg cfg with
  | none => some (.ok ())
  | some pat => (p6Proc cfg.name pat rtest evs "").1

/-- `ProcessAdapterConfig` (ProcessAdapter.ts lines 4–11). -/
structure PAConfig where
  name : String
  command : String
  args : List String
  cwd : String
  readyPattern : String
  readyTimeoutMs? : Option Nat := none
deriving DecidableEq, Repr

/-- The polling loop of ProcessAdapter.ts `start()` (lines 44–49), with the
idealisation that each iteration takes exactly the 2000 ms sleep:
while the elapsed time is below the budget, sleep, then poll `isRunning`
(`polls k` is the k-th answer) and return true on success; a spent budget
leaves the loop. -/
def paLoop (timeoutMs : Nat) (polls : Nat → Bool) (k elapsed : Nat) : Bool :=
  if elapsed < timeoutMs then
    if polls k then true else paLoop timeoutMs polls (k + 1) (elapsed + 2000)
  else false
termination_by timeoutMs - elapsed
decreasing_by omega

/-- `start()` of ProcessAdapter.ts (lines 23–52): an already-running process
returns at once; otherwise the spawn is followed by the polling loop over
`readyTimeoutMs ?? 120000`, and a spent budget throws
`` `${name} did not start within ${timeoutMs}ms` ``.  No path stops or
kills the spawned process, hence the empty action list. -/
def paStart (cfg : PAConfig) (alreadyRunning : Bool) (polls : Nat → Bool) :
    Except String Unit × List Act :=
  if alreadyRunning then (.ok (), [])
  else
    let timeoutMs := cfg.readyTimeoutMs?.getD 120000
    if paLoop timeoutMs polls 0 0 then (.ok (), [])
    else (.error (cfg.name ++ " did not start within " ++ toString timeoutMs ++ "ms"), [])

/-- The project configuration as far as the supervisor reads it
(`SwarmConfig` of config.ts). -/
structure SwarmConfig where
  apps : List AppAdapterConfig := []
deriving DecidableEq, Repr

/-- The on-disk state of `.claude-swarm.json`. -/
inductive ConfigFile where
  | missing
  | invalid
  | parsed (c : SwarmConfig)
deriving DecidableEq, Repr

/-- `loadSwarmConfig` (config.ts lines 26–38): a missing file or one whose
`JSON.parse` throws yields `{}`; a parsed file is returned as-is — no field
of any command spec is inspected, so a platform-keyed command that does not
represent the host OS passes loading untouched. -/
def loadSwarmConfig : ConfigFile → SwarmConfig
  | .missing => {}
  | .invalid => {}
  | .parsed c => c

/-! ### Concrete fixtures (used by witnesses and counterexamples) -/

/-- A concrete instantiation of the regex oracle: `test` as substring
containment (the behaviour of a pattern with no metacharacters). -/
def rtestSub (pat s : String) : Bool :=
  (s.splitOn pat).length != 1

/-- The spec's own scenario config:
`{name:"api", start:"server --port 4001", port:4001, readyPattern:"listening"}`. -/
def cfgFixP : AppAdapterConfig :=
  { name := "api", start := .str "server --port 4001",
    readyPattern? := some "listening", port? := some 4001 }

/-- A config with no `readyPattern`. -/
def cfgFixNoP : AppAdapterConfig :=
  { name := "web", start := .str "npm run dev", port? := some 3000 }

/-- A config with a health endpoint and a port. -/
def cfgFixH : AppAdapterConfig :=
  { name := "hsvc", start := .str "serve",
    health? := some "http://localhost:4001/health", port? := some 4001 }

/-- A fresh instance over a missing registry file. -/
def wFix0 : TWorld :=
  { st := {}, reg := .missing }

/-- An instance that was started and probed positive once. -/
def stFixStarted : AdapterState :=
  { pid := some 9, started := true }

/-- Everything observable is up: health fetch 2xx, port listening, pid alive. -/
def envUp : ProbeEnv :=
  { fetchOutcome := .ok2xx, portListening := true, pidAlive := true }

/-- The health endpoint is unreachable although the port is listening and
the pid alive. -/
def envNetFailPortUp : ProbeEnv :=
  { fetchOutcome := .netFail, portListening := true, pidAlive := true }

/-- Nothing is up. -/
def envDown : ProbeEnv :=
  { fetchOutcome := .netFail, portListening := false, pidAlive := false }

/-- The world after a `start()` of the scenario config followed by the
process exiting with code 1 before any match: a failed start. -/
def wFailedStart : TWorld :=
  onExitCA cfgFixP "t1" (some 1)
    ((startCA cfgFixP false "proj" "t0" 42 wFix0).toOption.getD wFix0)

/-- A freshly constructed instance on which `start()` was never invoked
(`started = false`, as the constructor leaves it). -/
def wNeverStarted : TWorld :=
  { st := {}, reg := .missing }

/-! ### Helper lemmas -/

/-- Reading back the key just assigned yields the assigned entry. -/
theorem lookupEntry_setEntry_self (k : String) (v : RegistryEntry) (r : Registry) :
    lookupEntry k (setEntry k v r) = some v := by
  induction r with
  | nil => simp [setEntry, lookupEntry]
  | cons hd t ih =>
    obtain ⟨k', v'⟩ := hd
    by_cases h : k' = k <;> simp [setEntry, lookupEntry, h, ih]

/-- Assignment to one key leaves every other key's value unchanged. -/
theorem lookupEntry_setEntry_ne (j k : String) (v : RegistryEntry) (r : Registry)
    (h : j ≠ k) : lookupEntry j (setEntry k v r) = lookupEntry j r := by
  have hj : ¬ k = j := fun hh => h hh.symm
  induction r with
  | nil => simp [setEntry, lookupEntry, hj]
  | cons hd t ih =>
    obtain ⟨k', v'⟩ := hd
    by_cases hk : k' = k
    · subst hk
      simp [setEntry, lookupEntry, hj]
    · simp [setEntry, lookupEntry, hk, ih]

/-- `killGroup` always clears the `running` flag… -/
theorem killGroup_not_running (cfg : AppAdapterConfig) (isWin : Bool)
    (st : AdapterState) (sig : String) :
    (killGroup cfg isWin st sig).1.running = false := by
  unfold killGroup
  cases isWin <;> cases st.pid <;> cases portCfg cfg <;> simp

/-- …and the proc reference. -/
theorem killGroup_not_proc (cfg : AppAdapterConfig) (isWin : Bool)
    (st : AdapterState) (sig : String) :
    (killGroup cfg isWin st sig).1.proc = false := by
  unfold killGroup
  cases isWin <;> cases st.pid <;> cases portCfg cfg <;> simp

/-- `killGroup` touches only `pid`, `running` and `proc`; in particular
`startError` and `started` survive. -/
theorem killGroup_startError (cfg : AppAdapterConfig) (isWin : Bool)
    (st : AdapterState) (sig : String) :
    (killGroup cfg isWin st sig).1.startError = st.startError := by
  unfold killGroup
  cases isWin <;> cases st.pid <;> cases portCfg cfg <;> simp

/-- On a state that is already stopped (no pid, not running, no proc),
`killGroup` returns the state unchanged. -/
theorem killGroup_stopped_fixpoint (cfg : AppAdapterConfig) (isWin : Bool)
    (st : AdapterState) (sig : String)
    (h1 : st.pid = none) (h2 : st.running = false) (h3 : st.proc = false) :
    (killGroup cfg isWin st sig).1 = st := by
  obtain ⟨pid, proc, running, started, se⟩ := st
  simp only at h1 h2 h3
  subst h1; subst h2; subst h3
  unfold killGroup
  cases isWin <;> cases portCfg cfg <;> simp

/-- A resolvable stop spec makes `stop()` total: the result is `.ok`. -/
theorem stopCA_isOk (cfg : AppAdapterConfig) (isWin execFailed : Bool)
    (st : AdapterState) (h : cmdResolves isWin cfg.stop? = true) :
    (stopCA cfg isWin execFailed st).isOk = true := by
  unfold stopCA
  unfold cmdResolves at h
  cases hc : cmdTruthy cfg.stop? with
  | none => rfl
  | some spc =>
    rw [hc] at h
    simp only [Option.isSome] at h
    cases hr : resolveCommand isWin spc with
    | none => rw [hr] at h; simp at h
    | some cmd =>
      by_cases hs : cmd.startsWith "signal:" <;>
        simp [hc, hr, hs, Except.isOk, Except.toBool]

/-- A resolvable kill spec makes `kill()` total: the result is `.ok`. -/
theorem killCA_isOk (cfg : AppAdapterConfig) (isWin execFailed : Bool)
    (st : AdapterState) (h : cmdResolves isWin cfg.kill? = true) :
    (killCA cfg isWin execFailed st).isOk = true := by
  unfold killCA
  unfold cmdResolves at h
  cases hc : cmdTruthy cfg.kill? with
  | none => rfl
  | some spc =>
    rw [hc] at h
    simp only [Option.isSome] at h
    cases hr : resolveCommand isWin spc with
    | none => rw [hr] at h; simp at h
    | some cmd =>
      by_cases hs : cmd.startsWith "signal:" <;>
        simp [hc, hr, hs, Except.isOk, Except.toBool]

/-- Processing a prefix of occurrences that settles nothing, then the rest,
is processing the rest from the prefix's final buffer. -/
theorem p6Proc_append (name pat : String) (rtest : String → String → Bool)
    (pre evs : List P6Ev) (b : String)
    (h : (p6Proc name pat rtest pre b).1 = none) :
    p6Proc name pat rtest (pre ++ evs) b
      = p6Proc name pat rtest evs (p6Proc name pat rtest pre b).2.1 := by
  induction pre generalizing b with
  | nil => simp [p6Proc]
  | cons ev rest ih =>
    cases ev with
    | dataRead chunk =>
      simp only [p6Proc, List.cons_append] at h ⊢
      by_cases hr : rtest pat (b ++ chunk)
      · simp [hr] at h
      · simp only [hr, if_false] at h ⊢
        exact ih _ h
    | procExit code => simp [p6Proc] at h
    | timeoutFire => simp [p6Proc] at h

/-- No path of the readiness promise issues any termination attempt. -/
theorem p6Proc_no_acts (name pat : String) (rtest : String → String → Bool)
    (evs : List P6Ev) (b : String) :
    (p6Proc name pat rtest evs b).2.2 = [] := by
  induction evs generalizing b with
  | nil => simp [p6Proc]
  | cons ev rest ih =>
    cases ev with
    | dataRead chunk =>
      simp only [p6Proc]
      by_cases hr : rtest pat (b ++ chunk) <;> simp [hr, ih]
    | procExit code => simp [p6Proc]
    | timeoutFire => simp [p6Proc]

/-- If every poll answers false the polling loop can only run out. -/
theorem paLoop_of_all_false (timeoutMs : Nat) (polls : Nat → Bool)
    (h : ∀ k, polls k = false) :
    ∀ elapsed k, paLoop timeoutMs polls k elapsed = false := by
  have key : ∀ n elapsed k, timeoutMs - elapsed ≤ n →
      paLoop timeoutMs polls k elapsed = false := by
    intro n
    induction n with
    | zero =>
      intro elapsed k hle
      unfold paLoop
      have : ¬ elapsed < timeoutMs := by omega
      simp [this]
    | succ m ih =>
      intro elapsed k hle
      unfold paLoop
      by_cases he : elapsed < timeoutMs
      · simp only [he, if_true, h k, if_false]
        exact ih (elapsed + 2000) (k + 1) (by omega)
      · simp [he]
  exact fun elapsed k => key (timeoutMs - elapsed) elapsed k le_rfl

/-! ### Claim theorems -/

/-- C10: the Command Resolver is a pure function of the command spec and the
host OS: a plain string is returned unchanged; a platform-keyed spec yields
its windows entry on Windows and its mac entry otherwise; loading the config
file performs no platform validation, so a keyed spec that does not
represent the host OS passes loading and only errors when the command is
first used (here: `stop()` reading `.startsWith` of `undefined`). -/
theorem resolver_pure_platform_choice :
    (∀ isWin s, resolveCommand isWin (.str s) = some s)
    ∧ (∀ mc wc, resolveCommand true (.keyed mc wc) = wc)
    ∧ (∀ mc wc, resolveCommand false (.keyed mc wc) = mc)
    ∧ (∀ c, loadSwarmConfig (.parsed c) = c)
    ∧ (loadSwarmConfig .missing = {} ∧ loadSwarmConfig .invalid = {})
    ∧ (∀ mc, resolveCommand true (.keyed mc none) = none)
    ∧ (∀ cfg isWin execF st spc, cmdTruthy cfg.stop? = some spc →
        resolveCommand isWin spc = none →
        stopCA cfg isWin execF st
          = .error "TypeError: Cannot read properties of undefined") := by
  refine ⟨fun _ _ => rfl, fun _ _ => by simp [resolveCommand],
    fun _ _ => by simp [resolveCommand], fun _ => rfl, ⟨rfl, rfl⟩,
    fun _ => by simp [resolveCommand], ?_⟩
  intro cfg isWin execF st spc h1 h2
  simp [stopCA, h1, h2]

/-- C2: with `health` configured the probe chain is authoritative and
short-circuiting: a 2xx response gives true at once; a thrown fetch
(connection failure / timeout) gives false without consulting the port or
PID checks, whatever they would answer, and without touching the state; a
non-2xx response falls through to the port-then-PID tail, where a
configured port decides alone. -/
theorem health_probe_priority (cfg : AppAdapterConfig) (isWin : Bool)
    (env : ProbeEnv) (st : AdapterState)
    (h : (healthCfg cfg).isSome = true) :
    (env.fetchOutcome = .ok2xx → detectRunning cfg isWin env st = (true, st))
    ∧ (env.fetchOutcome = .netFail → detectRunning cfg isWin env st = (false, st))
    ∧ (env.fetchOutcome = .non2xx →
        detectRunning cfg isWin env st = detectPortPid cfg isWin env st)
    ∧ ((portCfg cfg).isSome = true →
        detectPortPid cfg isWin env st
          = ((if env.portCheckThrows then false else env.portListening), st)) := by
  obtain ⟨hv, hhv⟩ := Option.isSome_iff_exists.mp h
  refine ⟨?_, ?_, ?_, ?_⟩
  · intro he; simp [detectRunning, hhv, he]
  · intro he; simp [detectRunning, hhv, he]
  · intro he; simp [detectRunning, hhv, he]
  · intro hp
    obtain ⟨p, hpp⟩ := Option.isSome_iff_exists.mp hp
    cases isWin <;> simp [detectPortPid, hpp]

/-- Witness for C2: the health endpoint unreachable while the configured
port is listening and the pid alive — the probe still answers false. -/
theorem health_probe_priority_witness :
    detectRunning cfgFixH false envNetFailPortUp stFixStarted = (false, stFixStarted)
    ∧ envNetFailPortUp.portListening = true :=
  ⟨(health_probe_priority cfgFixH false envNetFailPortUp stFixStarted
      (by decide)).2.1 (by decide), by decide⟩

/-- C4: with no truthy `readyPattern`, `start()` resolves as soon as the
process is spawned, marking the instance running (and started) with the
spawned pid, without any readiness confirmation; later output events change
nothing, and the part_006 variant's `start()` likewise resolves immediately
whatever occurrences follow. -/
theorem start_without_pattern_fast_path (cfg : AppAdapterConfig) (isWin : Bool)
    (cwd now : String) (spawnPid : Nat) (w : TWorld)
    (rtest : String → String → Bool) (evs : List P6Ev)
    (h1 : patternCfg cfg = none) (h2 : cmdResolves isWin cfg.kill? = true) :
    ∃ w', startCA cfg isWin cwd now spawnPid w = .ok w'
      ∧ w'.st.running = true
      ∧ w'.st.started = true
      ∧ w'.st.pid = some spawnPid
      ∧ (∀ cwd2 now2 chunk, onDataCA cfg cwd2 now2 rtest chunk w' = w')
      ∧ p6StartOutcome cfg rtest evs = some (.ok ()) := by
  have hk := killCA_isOk cfg isWin false w.st h2
  unfold startCA
  cases hkc : killCA cfg isWin false w.st with
  | error e => rw [hkc] at hk; simp [Except.isOk, Except.toBool] at hk
  | ok r =>
    obtain ⟨st1, acts⟩ := r
    simp only [h1]
    exact ⟨_, rfl, rfl, rfl, rfl,
      fun cwd2 now2 chunk => by simp [onDataCA, h1],
      by simp [p6StartOutcome, h1]⟩

/-- Witness for C4 at the concrete no-pattern config. -/
theorem start_without_pattern_fast_path_witness :
    ∃ w', startCA cfgFixNoP false "proj" "t0" 7 wFix0 = .ok w'
      ∧ w'.st.running = true
      ∧ w'.st.started = true
      ∧ w'.st.pid = some 7
      ∧ (∀ cwd2 now2 chunk, onDataCA cfgFixNoP cwd2 now2 rtestSub chunk w' = w')
      ∧ p6StartOutcome cfgFixNoP rtestSub [] = some (.ok ()) :=
  start_without_pattern_fast_path cfgFixNoP false "proj" "t0" 7 wFix0 rtestSub []
    (by decide) (by decide)

/-- Helper: when the in-memory flag is down and the probe answers false,
`isRunning()` answers false whatever else holds. -/
theorem isRunningCA_fst_false (cfg : AppAdapterConfig) (isWin : Bool)
    (env : ProbeEnv) (cwd now : String) (w : TWorld)
    (hrun : w.st.running = false)
    (hd : (detectRunning cfg isWin env w.st).1 = false) :
    (isRunningCA cfg isWin env cwd now w).1 = false := by
  unfold isRunningCA
  by_cases hst : w.st.started <;> simp [hrun, hst, hd]

/-- C6: only `start()` can reject.  For any resolvable command spec,
`stop()` and `kill()` return `.ok`; their result does not depend on whether
the user command's `execSync` failed (the failure is swallowed), and a
failing non-signal stop command is still followed by the forced
`killGroup("SIGTERM")`; every failing probe (unreachable health endpoint,
throwing port check, dead pid) makes `isRunning()` answer false instead of
throwing. -/
theorem lifecycle_error_propagation :
    (∀ cfg isWin execF st, cmdResolves isWin cfg.stop? = true →
        (stopCA cfg isWin execF st).isOk = true)
    ∧ (∀ cfg isWin execF st, cmdResolves isWin cfg.kill? = true →
        (killCA cfg isWin execF st).isOk = true)
    ∧ (∀ cfg isWin execF st,
        stopCA cfg isWin execF st = stopCA cfg isWin false st
        ∧ killCA cfg isWin execF st = killCA cfg isWin false st)
    ∧ (∀ cfg isWin st cmd spc, cmdTruthy cfg.stop? = some spc →
        resolveCommand isWin spc = some cmd → cmd.startsWith "signal:" = false →
        stopCA cfg isWin true st
          = .ok ((killGroup cfg isWin st "SIGTERM").1,
              .execCmd cmd :: (killGroup cfg isWin st "SIGTERM").2))
    ∧ (∀ cfg isWin env cwd now w, (healthCfg cfg).isSome = true →
        env.fetchOutcome = .netFail → w.st.running = false →
        (isRunningCA cfg isWin env cwd now w).1 = false)
    ∧ (∀ cfg isWin env cwd now w, healthCfg cfg = none →
        (portCfg cfg).isSome = true → env.portCheckThrows = true →
        w.st.running = false →
        (isRunningCA cfg isWin env cwd now w).1 = false)
    ∧ (∀ cfg env cwd now w, healthCfg cfg = none → portCfg cfg = none →
        env.pidAlive = false → w.st.running = false →
        (isRunningCA cfg false env cwd now w).1 = false) := by
  refine ⟨fun cfg isWin execF st h => stopCA_isOk cfg isWin execF st h,
    fun cfg isWin execF st h => killCA_isOk cfg isWin execF st h,
    fun cfg isWin execF st => ⟨rfl, rfl⟩, ?_, ?_, ?_, ?_⟩
  · intro cfg isWin st cmd spc h1 h2 h3
    simp [stopCA, h1, h2, h3]
  · intro cfg isWin env cwd now w hh hf hrun
    obtain ⟨hv, hhv⟩ := Option.isSome_iff_exists.mp hh
    exact isRunningCA_fst_false cfg isWin env cwd now w hrun
      (by simp [detectRunning, hhv, hf])
  · intro cfg isWin env cwd now w hh hp ht hrun
    obtain ⟨p, hpp⟩ := Option.isSome_iff_exists.mp hp
    refine isRunningCA_fst_false cfg isWin env cwd now w hrun ?_
    cases isWin <;> simp [detectRunning, detectPortPid, hh, hpp, ht]
  · intro cfg env cwd now w hh hp ha hrun
    refine isRunningCA_fst_false cfg false env cwd now w hrun ?_
    cases hpd : w.st.pid <;> simp [detectRunning, detectPortPid, hh, hp, ha, hpd]

/-- Helper: on an already-stopped state a `stop()` with a resolvable spec
returns `.ok` with the state unchanged. -/
theorem ok_pair_eta {p : AdapterState × List Act} {st : AdapterState}
    (h : p.1 = st) :
    (Except.ok p : Except String (AdapterState × List Act)) = .ok (st, p.2) := by
  rw [← h]

/-- Helper: on an already-stopped state a `stop()` with a resolvable spec
returns `.ok` with the state unchanged. -/
theorem stopCA_stopped_noop (cfg : AppAdapterConfig) (isWin execF : Bool)
    (st : AdapterState) (h1 : st.pid = none) (h2 : st.running = false)
    (h3 : st.proc = false) (h6 : cmdResolves isWin cfg.stop? = true) :
    ∃ acts, stopCA cfg isWin execF st = .ok (st, acts) := by
  have hfixT := killGroup_stopped_fixpoint cfg isWin st "SIGTERM" h1 h2 h3
  unfold stopCA
  cases hc : cmdTruthy cfg.stop? with
  | none => exact ⟨_, ok_pair_eta hfixT⟩
  | some spc =>
    unfold cmdResolves at h6
    rw [hc] at h6
    simp only [Option.isSome] at h6
    cases hr : resolveCommand isWin spc with
    | none => rw [hr] at h6; simp at h6
    | some cmd =>
      simp only [hr]
      cases hs : cmd.startsWith "signal:"
      · refine ⟨Act.execCmd cmd :: (killGroup cfg isWin st "SIGTERM").2, ?_⟩
        simp only [hs, Bool.false_eq_true, if_false]
        rw [hfixT]
      · simp only [hs, if_true]
        exact ⟨_, ok_pair_eta
          (killGroup_stopped_fixpoint cfg isWin st (sigName cmd) h1 h2 h3)⟩

/-- Helper: the same for `kill()`. -/
theorem killCA_stopped_noop (cfg : AppAdapterConfig) (isWin execF : Bool)
    (st : AdapterState) (h1 : st.pid = none) (h2 : st.running = false)
    (h3 : st.proc = false) (h7 : cmdResolves isWin cfg.kill? = true) :
    ∃ acts, killCA cfg isWin execF st = .ok (st, acts) := by
  have hfixK := killGroup_stopped_fixpoint cfg isWin st "SIGKILL" h1 h2 h3
  unfold killCA
  cases hc : cmdTruthy cfg.kill? with
  | none => exact ⟨_, ok_pair_eta hfixK⟩
  | some spc =>
    unfold cmdResolves at h7
    rw [hc] at h7
    simp only [Option.isSome] at h7
    cases hr : resolveCommand isWin spc with
    | none => rw [hr] at h7; simp at h7
    | some cmd =>
      simp only [hr]
      cases hs : cmd.startsWith "signal:"
      · refine ⟨Act.execCmd cmd :: (killGroup cfg isWin st "SIGKILL").2, ?_⟩
        simp only [hs, Bool.false_eq_true, if_false]
        rw [hfixK]
      · simp only [hs, if_true]
        exact ⟨_, ok_pair_eta
          (killGroup_stopped_fixpoint cfg isWin st (sigName cmd) h1 h2 h3)⟩

/-- Helper: a stopped instance (no pid, nothing listening on the port, no
2xx health answer) probes false with the world unchanged. -/
theorem detectRunning_stopped (cfg : AppAdapterConfig) (isWin : Bool)
    (env : ProbeEnv) (st : AdapterState) (h1 : st.pid = none)
    (h4 : env.portListening = false) (h5 : env.fetchOutcome ≠ .ok2xx) :
    detectRunning cfg isWin env st = (false, st) := by
  have hpp : ∀ p, portCfg cfg = some p →
      ((if env.portCheckThrows then false else env.portListening), st) = (false, st) := by
    intro p _
    cases env.portCheckThrows <;> simp [h4]
  cases hh : healthCfg cfg with
  | some hv =>
    cases hf : env.fetchOutcome with
    | ok2xx => exact absurd hf h5
    | non2xx =>
      simp only [detectRunning, hh, hf]
      cases isWin <;> cases hp : portCfg cfg <;>
        simp [detectPortPid, hp, h1, h4] <;> cases env.portCheckThrows <;> simp
    | netFail => simp [detectRunning, hh, hf]
  | none =>
    cases isWin <;> cases hp : portCfg cfg <;>
      simp [detectRunning, detectPortPid, hh, hp, h1, h4] <;>
        cases env.portCheckThrows <;> simp

/-- C7: `stop()` and `kill()` on an already-stopped adapter (no tracked pid,
nothing listening on the configured port, no 2xx health answer) are no-ops:
both return `.ok` with the state unchanged — so a second call in a row does
exactly the same — and `isRunning()` is false before and after, with the
whole world untouched. -/
theorem stop_kill_idempotent (cfg : AppAdapterConfig) (isWin execF : Bool)
    (env : ProbeEnv) (cwd now : String) (w : TWorld)
    (h1 : w.st.pid = none) (h2 : w.st.running = false) (h3 : w.st.proc = false)
    (h4 : env.portListening = false) (h5 : env.fetchOutcome ≠ .ok2xx)
    (h6 : cmdResolves isWin cfg.stop? = true)
    (h7 : cmdResolves isWin cfg.kill? = true) :
    (∃ acts, stopCA cfg isWin execF w.st = .ok (w.st, acts))
    ∧ (∃ acts, killCA cfg isWin execF w.st = .ok (w.st, acts))
    ∧ isRunningCA cfg isWin env cwd now w = (false, w) := by
  refine ⟨stopCA_stopped_noop cfg isWin execF w.st h1 h2 h3 h6,
    killCA_stopped_noop cfg isWin execF w.st h1 h2 h3 h7, ?_⟩
  have hd := detectRunning_stopped cfg isWin env w.st h1 h4 h5
  by_cases hst : w.st.started <;> simp [isRunningCA, h2, hst, hd]

/-- Witness for C7: a stopped instance of the port-only config; both
terminators are no-ops and liveness stays false. -/
theorem stop_kill_idempotent_witness :
    (∃ acts, stopCA cfgFixNoP false true { started := true } = .ok ({ started := true }, acts))
    ∧ (∃ acts, killCA cfgFixNoP false true { started := true } = .ok ({ started := true }, acts))
    ∧ isRunningCA cfgFixNoP false envDown "proj" "t9"
        { st := { started := true }, reg := .missing }
      = (false, { st := { started := true }, reg := .missing }) :=
  stop_kill_idempotent cfgFixNoP false true envDown "proj" "t9"
    { st := { started := true }, reg := .missing }
    (by decide) (by decide) (by decide) (by decide) (by decide) (by decide) (by decide)

/-- Counterexample to C1 as stated: for the spec's own scenario config
(`readyPattern` set), `start()` of ConfigAdapter.ts has already resolved
(`.ok`) at spawn time, so when the process then exits with code 1 before
matching, nothing rejects — only `lastError` is set and `running` is
false.  The claimed rejection of `start()` does not happen. -/
theorem premature_exit_reject_cex :
    (startCA cfgFixP false "proj" "t0" 42 wFix0).isOk = true
    ∧ ((startCA cfgFixP false "proj" "t0" 42 wFix0).toOption.map (fun w =>
        ((onExitCA cfgFixP "t1" (some 1) w).st.startError,
         (onExitCA cfgFixP "t1" (some 1) w).st.running)))
      = some (some "api exited before becoming ready (exit code: 1)", false) := by
  decide

/-- C1 (amended): when the process exits before its output matches the
pattern, the exit handler of ConfigAdapter.ts sets `lastError` to exactly
`<name> exited before becoming ready (exit code: <code>)` and `running` is
false afterwards; in the part_006 variant, whose `start()` does await
readiness, the pending promise rejects with exactly that message; and the
exit-code substitution produces `exit code: 1` for code 1. -/
theorem premature_exit_error_message :
    (∀ cfg now code w, (patternCfg cfg).isSome = true → w.st.running = false →
        (onExitCA cfg now code w).st.startError = some (exitMsg cfg.name code)
        ∧ lastErrorOf (onExitCA cfg now code w).st = some (exitMsg cfg.name code)
        ∧ (onExitCA cfg now code w).st.running = false)
    ∧ (∀ name pat rtest pre code rest b,
        (p6Proc name pat rtest pre b).1 = none →
        (p6Proc name pat rtest (pre ++ P6Ev.procExit code :: rest) b).1
          = some (.error (exitMsg name code)))
    ∧ exitMsg "api" (some 1) = "api exited before becoming ready (exit code: 1)" := by
  refine ⟨?_, ?_, by decide⟩
  · intro cfg now code w hp hrun
    obtain ⟨pat, hpp⟩ := Option.isSome_iff_exists.mp hp
    refine ⟨?_, ?_, ?_⟩ <;> simp [onExitCA, lastErrorOf, hpp, hrun]
  · intro name pat rtest pre code rest b h
    rw [p6Proc_append name pat rtest pre _ b h]
    simp [p6Proc]

/-- Counterexample to C3 as stated: the spec's scenario config has a
`readyPattern`, yet `start()` of ConfigAdapter.ts resolves at spawn time;
having resolved, it can never later reject with a timeout error — this
adapter has no timeout path at all. -/
theorem ready_timeout_reject_cex :
    (patternCfg cfgFixP).isSome = true
    ∧ (startCA cfgFixP false "proj" "t0" 9 wFix0).isOk = true := by
  decide

/-- C3 (amended): in the variants that do await readiness, the elapsed
timeout rejects `start()` with a timeout error and performs no termination:
part_006 rejects with `<name> did not become ready within 120s` (fixed
120000 ms) issuing no termination attempt, and ProcessAdapter with
`readyTimeoutMs` absent rejects after its default 120000 ms budget with
`<name> did not start within 120000ms`; no path of either start issues a
stop/kill action, leaving the process to the caller. -/
theorem ready_timeout_behaviour :
    (∀ name pat rtest pre rest b,
        (p6Proc name pat rtest pre b).1 = none →
        (p6Proc name pat rtest (pre ++ P6Ev.timeoutFire :: rest) b).1
          = some (.error (p6TimeoutMsg name))
        ∧ (p6Proc name pat rtest (pre ++ P6Ev.timeoutFire :: rest) b).2.2 = [])
    ∧ (∀ cfg polls, cfg.readyTimeoutMs? = none → (∀ k, polls k = false) →
        paStart cfg false polls
          = (.error (cfg.name ++ " did not start within "
              ++ toString (120000 : Nat) ++ "ms"), []))
    ∧ (∀ cfg already polls, (paStart cfg already polls).2 = [])
    ∧ p6TimeoutMsg "api" = "api did not become ready within 120s" := by
  refine ⟨?_, ?_, ?_, by decide⟩
  · intro name pat rtest pre rest b h
    refine ⟨?_, p6Proc_no_acts name pat rtest _ b⟩
    rw [p6Proc_append name pat rtest pre _ b h]
    simp [p6Proc]
  · intro cfg polls hnone hfalse
    simp [paStart, hnone, paLoop_of_all_false 120000 polls hfalse 0 0]
  · intro cfg already polls
    unfold paStart
    by_cases ha : already <;> simp [ha] <;>
      by_cases hl : paLoop (cfg.readyTimeoutMs?.getD 120000) polls 0 0 <;> simp [hl]

/-- Helper: deregistering flips this adapter's present entry to stopped
with a null pid. -/
theorem deregister_lookup_self (cfg : AppAdapterConfig) (now : String)
    (f : RegFile) (e : RegistryEntry)
    (he : lookupEntry cfg.name (loadRegistry f) = some e) :
    lookupEntry cfg.name (loadRegistry (deregisterFromSwarm cfg now f))
      = some { e with status := "stopped", pid := none, stoppedAt := some now } := by
  simp only [deregisterFromSwarm]
  rw [he]
  simp [saveRegistry, loadRegistry, lookupEntry_setEntry_self]

/-- Helper: deregistering leaves every other key's value unchanged. -/
theorem deregister_lookup_ne (cfg : AppAdapterConfig) (now : String)
    (f : RegFile) (k : String) (hk : k ≠ cfg.name) :
    lookupEntry k (loadRegistry (deregisterFromSwarm cfg now f))
      = lookupEntry k (loadRegistry f) := by
  simp only [deregisterFromSwarm]
  cases he : lookupEntry cfg.name (loadRegistry f) with
  | none => rfl
  | some e =>
    simp [saveRegistry, loadRegistry, lookupEntry_setEntry_ne _ _ _ _ hk]

/-- Counterexample to C5 as stated: for the scenario config (readyPattern
set), `start()` succeeds (resolves) yet the registry still has no entry for
the adapter's name — registration only happens later, at the readiness
match. -/
theorem registry_after_start_cex :
    (startCA cfgFixP false "proj" "t0" 42 wFix0).isOk = true
    ∧ (startCA cfgFixP false "proj" "t0" 42 wFix0).toOption.map
        (fun w => lookupEntry cfgFixP.name (loadRegistry w.reg)) = some none := by
  decide

/-- C5 (amended): the registry round trip holds at the transition to
running rather than at `start()` resolution.  A missing or unparsable file
loads as the empty mapping; `registerInSwarm` writes a `running` entry with
the tracked pid and the config port under the adapter's name only;
`deregisterFromSwarm` flips that one entry to `stopped` with a null pid;
a no-pattern `start()` registers at once with the spawned pid; a readiness
match registers; the exit handler deregisters. -/
theorem registry_transition_round_trip :
    (loadRegistry .missing = ([] : Registry) ∧ loadRegistry .corrupt = ([] : Registry))
    ∧ (∀ cfg cwd now pid f,
        lookupEntry cfg.name (loadRegistry (registerInSwarm cfg cwd now pid f))
          = some { status := "running", pid := pid, port := cfg.port?,
                   log := logFile cwd cfg.name, project := cwd,
                   health := registryHealth cfg, startedAt := some now,
                   stoppedAt := none })
    ∧ (∀ cfg cwd now pid f k, k ≠ cfg.name →
        lookupEntry k (loadRegistry (registerInSwarm cfg cwd now pid f))
          = lookupEntry k (loadRegistry f))
    ∧ (∀ cfg now f e, lookupEntry cfg.name (loadRegistry f) = some e →
        lookupEntry cfg.name (loadRegistry (deregisterFromSwarm cfg now f))
          = some { e with status := "stopped", pid := none, stoppedAt := some now })
    ∧ (∀ cfg now f k, k ≠ cfg.name →
        lookupEntry k (loadRegistry (deregisterFromSwarm cfg now f))
          = lookupEntry k (loadRegistry f))
    ∧ (∀ cfg isWin cwd now spawnPid w, patternCfg cfg = none →
        cmdResolves isWin cfg.kill? = true →
        ∃ w', startCA cfg isWin cwd now spawnPid w = .ok w'
          ∧ lookupEntry cfg.name (loadRegistry w'.reg)
              = some { status := "running", pid := some spawnPid, port := cfg.port?,
                       log := logFile cwd cfg.name, project := cwd,
                       health := registryHealth cfg, startedAt := some now,
                       stoppedAt := none })
    ∧ (∀ cfg cwd now rtest chunk w pat, patternCfg cfg = some pat →
        w.st.running = false → rtest pat (stripAnsi (w.buf ++ chunk)) = true →
        lookupEntry cfg.name (loadRegistry (onDataCA cfg cwd now rtest chunk w).reg)
          = some { status := "running", pid := w.st.pid, port := cfg.port?,
                   log := logFile cwd cfg.name, project := cwd,
                   health := registryHealth cfg, startedAt := some now,
                   stoppedAt := none })
    ∧ (∀ cfg now code w e, lookupEntry cfg.name (loadRegistry w.reg) = some e →
        lookupEntry cfg.name (loadRegistry (onExitCA cfg now code w).reg)
          = some { e with status := "stopped", pid := none, stoppedAt := some now }) := by
  refine ⟨⟨rfl, rfl⟩, ?_, ?_, ?_, ?_, ?_, ?_, ?_⟩
  · intro cfg cwd now pid f
    simp [registerInSwarm, saveRegistry, loadRegistry, lookupEntry_setEntry_self]
  · intro cfg cwd now pid f k hk
    simp [registerInSwarm, saveRegistry, loadRegistry,
      lookupEntry_setEntry_ne _ _ _ _ hk]
  · intro cfg now f e he
    exact deregister_lookup_self cfg now f e he
  · intro cfg now f k hk
    exact deregister_lookup_ne cfg now f k hk
  · intro cfg isWin cwd now spawnPid w hp hkr
    have hk := killCA_isOk cfg isWin false w.st hkr
    unfold startCA
    cases hkc : killCA cfg isWin false w.st with
    | error e => rw [hkc] at hk; simp [Except.isOk, Except.toBool] at hk
    | ok r =>
      obtain ⟨st1, acts⟩ := r
      simp only [hp]
      exact ⟨_, rfl, by
        simp [registerInSwarm, saveRegistry, loadRegistry, lookupEntry_setEntry_self]⟩
  · intro cfg cwd now rtest chunk w pat hp hrun hm
    simp [onDataCA, hp, hrun, hm, registerInSwarm, saveRegistry, loadRegistry,
      lookupEntry_setEntry_self]
  · intro cfg now code w e he
    exact deregister_lookup_self cfg now w.reg e he

/-- Counterexample to C8 as stated: starting the scenario config, letting
the process exit with code 1 before any match (`lastError` set), then one
`isRunning()` call while something is listening on the configured port,
leaves a state with `lastError` still set AND `running` true — the claimed
invariant `lastError set ⇒ running false` is violated by a reachable
sequence of lifecycle operations. -/
theorem state_invariant_cex :
    ((isRunningCA cfgFixP false envUp "proj" "t2" wFailedStart).2.st.running = true)
    ∧ ((isRunningCA cfgFixP false envUp "proj" "t2" wFailedStart).2.st.startError
        = some "api exited before becoming ready (exit code: 1)") := by
  decide

/-- C8 (amended): `running ⇒ ¬isStarting()` holds of every state by the
definition of `isStarting`; and `start()`, `stop()`, `kill()` and the exit
handler each re-establish `lastError set ⇒ ¬running` (the terminators and
the exit handler clear `running`; a start clears `lastError`).  The missing
case is a positive re-probe or late readiness match after a failed start,
which sets `running` without clearing `lastError` (see the
counterexample). -/
theorem state_invariant_partial :
    (∀ st : AdapterState, st.running = true → isStarting st = false)
    ∧ (∀ cfg isWin execF st r, stopCA cfg isWin execF st = .ok r →
        r.1.running = false)
    ∧ (∀ cfg isWin execF st r, killCA cfg isWin execF st = .ok r →
        r.1.running = false)
    ∧ (∀ cfg now code w, (onExitCA cfg now code w).st.running = false)
    ∧ (∀ cfg isWin cwd now spawnPid w w',
        startCA cfg isWin cwd now spawnPid w = .ok w' → w'.st.startError = none) := by
  refine ⟨?_, ?_, ?_, ?_, ?_⟩
  · intro st h; simp [isStarting, h]
  · intro cfg isWin execF st r hr
    unfold stopCA at hr
    cases hc : cmdTruthy cfg.stop? with
    | none =>
      simp only [hc, Except.ok.injEq] at hr
      subst hr
      exact killGroup_not_running cfg isWin st "SIGTERM"
    | some spc =>
      simp only [hc] at hr
      cases hr2 : resolveCommand isWin spc with
      | none => rw [hr2] at hr; simp at hr
      | some cmd =>
        rw [hr2] at hr
        cases hs : cmd.startsWith "signal:"
        · simp only [hs, Bool.false_eq_true, if_false, Except.ok.injEq] at hr
          subst hr
          exact killGroup_not_running cfg isWin st "SIGTERM"
        · simp only [hs, if_true, Except.ok.injEq] at hr
          subst hr
          exact killGroup_not_running cfg isWin st (sigName cmd)
  · intro cfg isWin execF st r hr
    unfold killCA at hr
    cases hc : cmdTruthy cfg.kill? with
    | none =>
      simp only [hc, Except.ok.injEq] at hr
      subst hr
      exact killGroup_not_running cfg isWin st "SIGKILL"
    | some spc =>
      simp only [hc] at hr
      cases hr2 : resolveCommand isWin spc with
      | none => rw [hr2] at hr; simp at hr
      | some cmd =>
        rw [hr2] at hr
        cases hs : cmd.startsWith "signal:"
        · simp only [hs, Bool.false_eq_true, if_false, Except.ok.injEq] at hr
          subst hr
          exact killGroup_not_running cfg isWin st "SIGKILL"
        · simp only [hs, if_true, Except.ok.injEq] at hr
          subst hr
          exact killGroup_not_running cfg isWin st (sigName cmd)
  · intro cfg now code w; rfl
  · intro cfg isWin cwd now spawnPid w w' h
    unfold startCA at h
    cases hkc : killCA cfg isWin false w.st with
    | error e => rw [hkc] at h; simp at h
    | ok r =>
      obtain ⟨st1, acts⟩ := r
      rw [hkc] at h
      cases hp : patternCfg cfg with
      | none =>
        simp only [hp, Except.ok.injEq] at h
        subst h; rfl
      | some pat =>
        simp only [hp, Except.ok.injEq] at h
        subst h; rfl

/-- Counterexample to C9 as stated: an instance whose `running` flag is
false but on which `start()` was never invoked answers false and performs
no probe, no state change and no registration — although a probe of the
same environment would have detected the process up. -/
theorem fresh_probe_cex :
    isRunningCA cfgFixNoP false envUp "proj" "t0" wNeverStarted
      = (false, wNeverStarted)
    ∧ (detectRunning cfgFixNoP false envUp wNeverStarted.st).1 = true := by
  decide

/-- C9 (amended): a true in-memory `running` flag short-circuits to true
with nothing touched; a started instance whose flag is false always
probes — a positive probe answers true, sets `running` and re-registers the
adapter's entry as running, a negative probe answers false and leaves the
registry alone; but an instance on which `start()` was never invoked
(`started` false) answers false without probing. -/
theorem is_running_probe_behaviour :
    (∀ cfg isWin env cwd now w, w.st.running = true →
        isRunningCA cfg isWin env cwd now w = (true, w))
    ∧ (∀ cfg isWin env cwd now w, w.st.running = false → w.st.started = false →
        isRunningCA cfg isWin env cwd now w = (false, w))
    ∧ (∀ cfg isWin env cwd now w, w.st.running = false → w.st.started = true →
        (detectRunning cfg isWin env w.st).1 = true →
        (isRunningCA cfg isWin env cwd now w).1 = true
        ∧ (isRunningCA cfg isWin env cwd now w).2.st.running = true
        ∧ lookupEntry cfg.name
            (loadRegistry (isRunningCA cfg isWin env cwd now w).2.reg)
          = some { status := "running",
                   pid := (detectRunning cfg isWin env w.st).2.pid,
                   port := cfg.port?, log := logFile cwd cfg.name, project := cwd,
                   health := registryHealth cfg, startedAt := some now,
                   stoppedAt := none })
    ∧ (∀ cfg isWin env cwd now w, w.st.running = false → w.st.started = true →
        (detectRunning cfg isWin env w.st).1 = false →
        (isRunningCA cfg isWin env cwd now w).1 = false
        ∧ (isRunningCA cfg isWin env cwd now w).2.reg = w.reg) := by
  refine ⟨?_, ?_, ?_, ?_⟩
  · intro cfg isWin env cwd now w h
    simp [isRunningCA, h]
  · intro cfg isWin env cwd now w h1 h2
    simp [isRunningCA, h1, h2]
  · intro cfg isWin env cwd now w h1 h2 hd
    refine ⟨?_, ?_, ?_⟩ <;>
      simp [isRunningCA, h1, h2, hd, registerInSwarm, saveRegistry, loadRegistry,
        lookupEntry_setEntry_self]
  · intro cfg isWin env cwd now w h1 h2 hd
    refine ⟨?_, ?_⟩ <;> simp [isRunningCA, h1, h2, hd]

end ClaudeSwarm
